import Mathlib

/-!
Shallow embedding of the order-parameter translation and validation engine of the
v4-clients Python SDK, from:

* `v4_client_py/clients/helpers/chain_helpers.py`
* `v4_client_py/clients/composer.py`
* `v4_client_py/clients/dydx_composite_client.py`

Conventions of the embedding: Python floats carrying prices and sizes are modelled
as exact rationals (`ℚ`); Python ints as `ℤ` (market parameters, which may be
negative) or `ℕ` (block heights, block counts, timestamps, proto uint fields);
a raised `ValueError` / `TypeError` is an `Except.error` with one error
constructor per distinct raise site; the wall clock read by `datetime.now()` and
the chain height fetched from the validator are passed as explicit arguments.
-/

namespace V4Client

/-- Enumeration `OrderSide` of chain_helpers.py. -/
inductive OrderSide
  | BUY
  | SELL
deriving DecidableEq

/-- Enumeration `OrderType` of chain_helpers.py. -/
inductive OrderType
  | MARKET
  | LIMIT
  | STOP_MARKET
  | TAKE_PROFIT_MARKET
  | STOP_LIMIT
  | TAKE_PROFIT_LIMIT
deriving DecidableEq

/-- Enumeration `OrderTimeInForce` of chain_helpers.py (members GTT, IOC, FOK). -/
inductive OrderTimeInForce
  | GTT
  | IOC
  | FOK
deriving DecidableEq

/-- Protocol-buffer enum `Order.Side` consumed by the composer. -/
inductive ProtoSide
  | SIDE_BUY
  | SIDE_SELL
deriving DecidableEq

/-- Protocol-buffer enum `Order.TimeInForce` produced by `calculate_time_in_force`. -/
inductive ProtoTimeInForce
  | TIME_IN_FORCE_UNSPECIFIED
  | TIME_IN_FORCE_IOC
  | TIME_IN_FORCE_POST_ONLY
  | TIME_IN_FORCE_FILL_OR_KILL
deriving DecidableEq

/-- Protocol-buffer enum `Order.ConditionType` consumed by the composer. -/
inductive ProtoConditionType
  | CONDITION_TYPE_UNSPECIFIED
  | CONDITION_TYPE_STOP_LOSS
  | CONDITION_TYPE_TAKE_PROFIT
deriving DecidableEq

/-- Errors raised by the helpers, one constructor per distinct raise site.
`missingRequiredArgument` models the Python `TypeError` raised when a function
with a required positional parameter is called without it. -/
inductive ChainError
  | invalidOrderFlag
  | statefulOrderMissingGTBT
  | statefulOrderNonzeroGTB
  | shortTermOrderMissingGTB
  | shortTermOrderNonzeroGTBT
  | invalidTimeInForceForOrderType
  | invalidOrderType
  | missingTriggerPrice
  | goodTilBlockOutOfWindow
  | missingRequiredArgument
deriving DecidableEq

/-- Constant `ORDER_FLAGS_SHORT_TERM` of chain_helpers.py. -/
def ORDER_FLAGS_SHORT_TERM : ℕ := 0

/-- Constant `ORDER_FLAGS_LONG_TERM` of chain_helpers.py. -/
def ORDER_FLAGS_LONG_TERM : ℕ := 64

/-- Constant `ORDER_FLAGS_CONDITIONAL` of chain_helpers.py. -/
def ORDER_FLAGS_CONDITIONAL : ℕ := 32

/-- Constant `QUOTE_QUANTUMS_ATOMIC_RESOLUTION` of chain_helpers.py. -/
def QUOTE_QUANTUMS_ATOMIC_RESOLUTION : ℤ := -6

/-- Constant `SHORT_BLOCK_WINDOW` of chain_helpers.py. -/
def SHORT_BLOCK_WINDOW : ℕ := 20

/-- Function `is_order_flag_stateful_order` of chain_helpers.py. -/
def is_order_flag_stateful_order (order_flag : ℕ) : Except ChainError Bool :=
  if order_flag = ORDER_FLAGS_SHORT_TERM then .ok false
  else if order_flag = ORDER_FLAGS_LONG_TERM then .ok true
  else if order_flag = ORDER_FLAGS_CONDITIONAL then .ok true
  else .error .invalidOrderFlag

/-- Function `validate_good_til_fields` of chain_helpers.py, keeping the source's
parameter order `(is_stateful_order, good_til_block_time, good_til_block)` and the
source's order of checks. -/
def validate_good_til_fields (is_stateful_order : Bool)
    (good_til_block_time : ℕ) (good_til_block : ℕ) : Except ChainError Unit :=
  if is_stateful_order then
    if good_til_block_time = 0 then .error .statefulOrderMissingGTBT
    else if good_til_block ≠ 0 then .error .statefulOrderNonzeroGTB
    else .ok ()
  else
    if good_til_block = 0 then .error .shortTermOrderMissingGTB
    else if good_til_block_time ≠ 0 then .error .shortTermOrderNonzeroGTBT
    else .ok ()

/-- Exact-rational value of the Python expression `10 ** e` for an integer
exponent `e` (the source computes it with floats when `e < 0`; the embedding is
exact). -/
def pow10 (e : ℤ) : ℚ :=
  if 0 ≤ e then (10 : ℚ) ^ e.toNat else ((10 : ℚ) ^ (-e).toNat)⁻¹

/-- Python `int(q)` on a rational value: truncation toward zero. -/
def ratTrunc (q : ℚ) : ℤ := if 0 ≤ q then ⌊q⌋ else ⌈q⌉

/-- Function `round` of chain_helpers.py: `int(number / base) * base`. -/
def round (number : ℚ) (base : ℤ) : ℤ := ratTrunc (number / (base : ℚ)) * base

/-- Function `calculate_quantums` of chain_helpers.py. -/
def calculate_quantums (size : ℚ) (atomic_resolution : ℤ)
    (step_base_quantums : ℤ) : ℤ :=
  let raw_quantums := size * pow10 (-1 * atomic_resolution)
  let quantums := round raw_quantums step_base_quantums
  max quantums step_base_quantums

/-- Function `calculate_subticks` of chain_helpers.py. -/
def calculate_subticks (price : ℚ) (atomic_resolution : ℤ)
    (quantum_conversion_exponent : ℤ) (subticks_per_tick : ℤ) : ℤ :=
  let exponent := atomic_resolution - quantum_conversion_exponent - QUOTE_QUANTUMS_ATOMIC_RESOLUTION
  let raw_subticks := price * pow10 exponent
  let subticks := round raw_subticks subticks_per_tick
  max subticks subticks_per_tick

/-- Function `calculate_time_in_force` of chain_helpers.py. Its third parameter
`post_only` is a required positional parameter with no default. -/
def calculate_time_in_force (order_type : OrderType)
    (time_in_force : OrderTimeInForce) (post_only : Bool) :
    Except ChainError ProtoTimeInForce :=
  if order_type = .MARKET ∨ order_type = .STOP_MARKET ∨ order_type = .TAKE_PROFIT_MARKET then
    if time_in_force = .FOK then .ok .TIME_IN_FORCE_FILL_OR_KILL
    else if time_in_force = .IOC then .ok .TIME_IN_FORCE_IOC
    else .error .invalidTimeInForceForOrderType
  else if order_type = .LIMIT ∨ order_type = .STOP_LIMIT ∨ order_type = .TAKE_PROFIT_LIMIT then
    if time_in_force = .GTT then
      if post_only then .ok .TIME_IN_FORCE_POST_ONLY
      else .ok .TIME_IN_FORCE_UNSPECIFIED
    else if time_in_force = .FOK then .ok .TIME_IN_FORCE_FILL_OR_KILL
    else if time_in_force = .IOC then .ok .TIME_IN_FORCE_IOC
    else .error .invalidTimeInForceForOrderType
  else .error .invalidOrderType

/-- Function `calculate_order_flags` of chain_helpers.py. -/
def calculate_order_flags (order_type : OrderType)
    (time_in_force : OrderTimeInForce) : ℕ :=
  if order_type = .MARKET then ORDER_FLAGS_SHORT_TERM
  else if order_type = .LIMIT then
    if time_in_force = .GTT then ORDER_FLAGS_LONG_TERM
    else ORDER_FLAGS_SHORT_TERM
  else ORDER_FLAGS_CONDITIONAL

/-- Function `calculate_conditional_order_trigger_subticks` of chain_helpers.py.
The source compares `trigger_price` against `None`, so the parameter is an
`Option`. -/
def calculate_conditional_order_trigger_subticks (order_type : OrderType)
    (atomic_resolution : ℤ) (quantum_conversion_exponent : ℤ)
    (subticks_per_tick : ℤ) (trigger_price : Option ℚ) : Except ChainError ℤ :=
  if order_type = .LIMIT ∨ order_type = .MARKET then .ok 0
  else if order_type = .STOP_LIMIT ∨ order_type = .STOP_MARKET ∨
      order_type = .TAKE_PROFIT_LIMIT ∨ order_type = .TAKE_PROFIT_MARKET then
    match trigger_price with
    | none => .error .missingTriggerPrice
    | some p => .ok (calculate_subticks p atomic_resolution quantum_conversion_exponent subticks_per_tick)
  else .error .invalidOrderType

/-- Protocol-buffer message `SubaccountId` as built by composer.py. -/
structure SubaccountId where
  owner : String
  number : ℕ
deriving DecidableEq

/-- Protocol-buffer message `OrderId` as built by composer.py. -/
structure OrderId where
  subaccount_id : SubaccountId
  client_id : ℕ
  order_flags : ℕ
  clob_pair_id : ℕ
deriving DecidableEq

/-- Protocol-buffer message `Order` with the fields composer.py sets. -/
structure Order where
  order_id : OrderId
  side : ProtoSide
  quantums : ℕ
  subticks : ℕ
  good_til_block : ℕ
  good_til_block_time : ℕ
  time_in_force : ProtoTimeInForce
  reduce_only : Bool
  client_metadata : ℕ
  condition_type : ProtoConditionType
  conditional_order_trigger_subticks : ℕ
deriving DecidableEq

/-- Protocol-buffer message `MsgPlaceOrder`. -/
structure MsgPlaceOrder where
  order : Order
deriving DecidableEq

/-- Protocol-buffer message `MsgCancelOrder`; the field the source does not pass
to the constructor keeps the proto default 0. -/
structure MsgCancelOrder where
  order_id : OrderId
  good_til_block : ℕ
  good_til_block_time : ℕ
deriving DecidableEq

/-- Method `Composer.compose_msg_place_order` of composer.py: it resolves
statefulness from the order flags, runs `validate_good_til_fields`, and only then
builds the message. A propagating Python exception is an `Except.error`. -/
def compose_msg_place_order (address : String) (subaccount_number : ℕ)
    (client_id : ℕ) (clob_pair_id : ℕ) (order_flags : ℕ)
    (good_til_block : ℕ) (good_til_block_time : ℕ) (side : ProtoSide)
    (quantums : ℕ) (subticks : ℕ) (time_in_force : ProtoTimeInForce)
    (reduce_only : Bool) (client_metadata : ℕ)
    (condition_type : ProtoConditionType)
    (conditional_order_trigger_subticks : ℕ) :
    Except ChainError MsgPlaceOrder :=
  let subaccount_id : SubaccountId := ⟨address, subaccount_number⟩
  match is_order_flag_stateful_order order_flags with
  | .error e => .error e
  | .ok is_stateful_order =>
    match validate_good_til_fields is_stateful_order good_til_block_time good_til_block with
    | .error e => .error e
    | .ok _ =>
      let order_id : OrderId := ⟨subaccount_id, client_id, order_flags, clob_pair_id⟩
      .ok ⟨⟨order_id, side, quantums, subticks, good_til_block, good_til_block_time,
            time_in_force, reduce_only, client_metadata, condition_type,
            conditional_order_trigger_subticks⟩⟩

/-- Method `Composer.compose_msg_cancel_order` of composer.py. -/
def compose_msg_cancel_order (address : String) (subaccount_number : ℕ)
    (client_id : ℕ) (clob_pair_id : ℕ) (order_flags : ℕ)
    (good_til_block : ℕ) (good_til_block_time : ℕ) :
    Except ChainError MsgCancelOrder :=
  let subaccount_id : SubaccountId := ⟨address, subaccount_number⟩
  match is_order_flag_stateful_order order_flags with
  | .error e => .error e
  | .ok is_stateful_order =>
    match validate_good_til_fields is_stateful_order good_til_block_time good_til_block with
    | .error e => .error e
    | .ok _ =>
      let order_id : OrderId := ⟨subaccount_id, client_id, order_flags, clob_pair_id⟩
      if is_stateful_order then .ok ⟨order_id, 0, good_til_block_time⟩
      else .ok ⟨order_id, good_til_block, 0⟩

/-- Modelled from the spec: the `OrderFlags` enumeration with its `is_stateful`
method. dydx_composite_client.py imports `OrderFlags` from
`helpers.chain_helpers` and calls `order_flags.is_stateful()`, but the class
definition is not among the source files. Spec §3: enumeration
SHORT_TERM=0, CONDITIONAL=32, LONG_TERM=64, with the invariant
statefulness = (flags ≠ SHORT_TERM); CONDITIONAL and LONG_TERM are stateful,
SHORT_TERM is not. -/
inductive OrderFlags
  | SHORT_TERM
  | LONG_TERM
  | CONDITIONAL
deriving DecidableEq

/-- Modelled from the spec: the integer value of each `OrderFlags` member
(spec §3: SHORT_TERM=0, CONDITIONAL=32, LONG_TERM=64). -/
def OrderFlags.toNat : OrderFlags → ℕ
  | .SHORT_TERM => ORDER_FLAGS_SHORT_TERM
  | .LONG_TERM => ORDER_FLAGS_LONG_TERM
  | .CONDITIONAL => ORDER_FLAGS_CONDITIONAL

/-- Modelled from the spec: `OrderFlags.is_stateful`, spec §3 invariant
statefulness = (flags ≠ SHORT_TERM). -/
def OrderFlags.is_stateful : OrderFlags → Bool
  | .SHORT_TERM => false
  | _ => true

/-- Method `CompositeClient.calculate_good_til_block_time` of
dydx_composite_client.py: `int((datetime.now() + timedelta(seconds=s)).timestamp())`.
The wall clock is the explicit argument `now`, a unix timestamp in seconds. -/
def calculate_good_til_block_time (now : ℕ) (good_til_time_in_seconds : ℕ) : ℕ :=
  now + good_til_time_in_seconds

/-- Method `CompositeClient.validate_good_til_block` of dydx_composite_client.py,
with the chain height passed explicitly. -/
def validate_good_til_block (good_til_block : ℕ) (latest_block_height : ℕ) :
    Except ChainError Unit :=
  let next_valid_block_height := latest_block_height + 1
  let lower_bound := next_valid_block_height
  let upper_bound := next_valid_block_height + SHORT_BLOCK_WINDOW
  if good_til_block < lower_bound ∨ good_til_block > upper_bound then
    .error .goodTilBlockOutOfWindow
  else .ok ()

/-- Method `CompositeClient.calculate_good_til_block` of dydx_composite_client.py:
adds the requested block count to the latest height, validates the window, and
returns the sum. -/
def calculate_good_til_block (good_til_blocks : ℕ) (latest_height : ℕ) :
    Except ChainError ℕ :=
  let good_til_block := latest_height + good_til_blocks
  match validate_good_til_block good_til_block latest_height with
  | .error e => .error e
  | .ok _ => .ok good_til_block

/-- Method `CompositeClient.generate_good_til_fields` of dydx_composite_client.py.
The wall clock `now` (read by `calculate_good_til_block_time`) is an explicit
argument. -/
def generate_good_til_fields (order_flags : OrderFlags) (good_til_blocks : ℕ)
    (good_til_seconds : ℕ) (latest_height : ℕ) (now : ℕ) :
    Except ChainError (ℕ × ℕ) :=
  if order_flags.is_stateful then
    .ok (0, calculate_good_til_block_time now good_til_seconds)
  else
    match calculate_good_til_block good_til_blocks latest_height with
    | .error e => .error e
    | .ok good_til_block => .ok (good_til_block, 0)

/-- Python call semantics for `calculate_time_in_force`: its `post_only`
parameter is required positional with no default, so a call site that omits it
raises `TypeError` before the function body runs. `none` means the argument was
omitted at the call site. -/
def calculate_time_in_force_call (order_type : OrderType)
    (time_in_force : OrderTimeInForce) (post_only_arg : Option Bool) :
    Except ChainError ProtoTimeInForce :=
  match post_only_arg with
  | none => .error .missingRequiredArgument
  | some post_only => calculate_time_in_force order_type time_in_force post_only

/-- The resolver call of `CompositeClient.place_order` (dydx_composite_client.py
line 171): `calculate_time_in_force(type, time_in_force)` passes only two
arguments, omitting the required `post_only`. -/
def place_order_time_in_force (order_type : OrderType)
    (time_in_force : OrderTimeInForce) : Except ChainError ProtoTimeInForce :=
  calculate_time_in_force_call order_type time_in_force none

/-- Modelled from the spec: §3 lists the OrderIntent timeInForce domain as
GTT | GTX | IOC | FOK. Used only to compare the spec's domain with the source
enum `OrderTimeInForce`. -/
inductive SpecTimeInForce
  | GTT
  | GTX
  | IOC
  | FOK
deriving DecidableEq

/-- Name-for-name correspondence between the spec's timeInForce domain and the
source enumeration `OrderTimeInForce` of chain_helpers.py, whose only members
are GTT, IOC and FOK: the spec's GTX has no counterpart in the source. -/
def specTimeInForceToCode : SpecTimeInForce → Option OrderTimeInForce
  | .GTT => some .GTT
  | .IOC => some .IOC
  | .FOK => some .FOK
  | .GTX => none

/-- Modelled from the spec: the resolveTimeInForce rule table of §4.2, restricted
to the timeInForce values that exist in the source enumeration (the spec's GTX
has no source counterpart, see `specTimeInForceToCode`): market-class order
types accept only IOC→IOC or FOK→FOK; limit-class order types accept
GTT→UNSPECIFIED (or POST_ONLY when the post-only flag is set), IOC→IOC,
FOK→FOK; everything else fails with InvalidTimeInForceForOrderType. Used only
to compare the source resolver against the spec's table. -/
def resolveTimeInForceSpec (order_type : OrderType)
    (time_in_force : OrderTimeInForce) (post_only : Bool) :
    Except ChainError ProtoTimeInForce :=
  match order_type, time_in_force with
  | .MARKET, .IOC | .STOP_MARKET, .IOC | .TAKE_PROFIT_MARKET, .IOC =>
      .ok .TIME_IN_FORCE_IOC
  | .MARKET, .FOK | .STOP_MARKET, .FOK | .TAKE_PROFIT_MARKET, .FOK =>
      .ok .TIME_IN_FORCE_FILL_OR_KILL
  | .MARKET, _ | .STOP_MARKET, _ | .TAKE_PROFIT_MARKET, _ =>
      .error .invalidTimeInForceForOrderType
  | .LIMIT, .GTT | .STOP_LIMIT, .GTT | .TAKE_PROFIT_LIMIT, .GTT =>
      if post_only then .ok .TIME_IN_FORCE_POST_ONLY
      else .ok .TIME_IN_FORCE_UNSPECIFIED
  | .LIMIT, .IOC | .STOP_LIMIT, .IOC | .TAKE_PROFIT_LIMIT, .IOC =>
      .ok .TIME_IN_FORCE_IOC
  | .LIMIT, .FOK | .STOP_LIMIT, .FOK | .TAKE_PROFIT_LIMIT, .FOK =>
      .ok .TIME_IN_FORCE_FILL_OR_KILL

/-! Arithmetic facts about the fixed-point converter. -/

theorem pow10_pos (e : ℤ) : 0 < pow10 e := by
  unfold pow10
  split
  · exact pow_pos (by norm_num) _
  · exact inv_pos.mpr (pow_pos (by norm_num) _)

theorem round_dvd (number : ℚ) (base : ℤ) : base ∣ round number base :=
  dvd_mul_left base (ratTrunc (number / (base : ℚ)))

theorem ratTrunc_nonpos {q : ℚ} (h : q ≤ 0) : ratTrunc q ≤ 0 := by
  unfold ratTrunc
  split
  · exact Int.floor_nonpos h
  · exact Int.ceil_le.mpr (by exact_mod_cast h)

theorem round_nonpos {number : ℚ} {base : ℤ} (hn : number ≤ 0) (hb : 0 < base) :
    round number base ≤ 0 := by
  have hq : number / (base : ℚ) ≤ 0 :=
    div_nonpos_of_nonpos_of_nonneg hn (by exact_mod_cast hb.le)
  have ht : ratTrunc (number / (base : ℚ)) ≤ 0 := ratTrunc_nonpos hq
  calc ratTrunc (number / (base : ℚ)) * base ≤ 0 * base :=
        mul_le_mul_of_nonneg_right ht hb.le
    _ = 0 := zero_mul base

theorem round_cast_of_nonneg {number : ℚ} {base : ℤ}
    (hq : 0 ≤ number / (base : ℚ)) :
    ((round number base : ℤ) : ℚ) = (⌊number / (base : ℚ)⌋ : ℚ) * (base : ℚ) := by
  have hfl : ratTrunc (number / (base : ℚ)) = ⌊number / (base : ℚ)⌋ := if_pos hq
  unfold round
  rw [hfl]
  push_cast
  rfl

theorem round_le_of_nonneg {number : ℚ} {base : ℤ} (hn : 0 ≤ number)
    (hb : 0 < base) : ((round number base : ℤ) : ℚ) ≤ number := by
  have hbq : (0 : ℚ) < (base : ℚ) := by exact_mod_cast hb
  have hq : 0 ≤ number / (base : ℚ) := div_nonneg hn hbq.le
  rw [round_cast_of_nonneg hq]
  calc (⌊number / (base : ℚ)⌋ : ℚ) * (base : ℚ)
      ≤ (number / (base : ℚ)) * (base : ℚ) :=
        mul_le_mul_of_nonneg_right (Int.floor_le _) hbq.le
    _ = number := div_mul_cancel₀ number hbq.ne'

theorem lt_round_add_of_nonneg {number : ℚ} {base : ℤ} (hn : 0 ≤ number)
    (hb : 0 < base) : number < ((round number base : ℤ) : ℚ) + (base : ℚ) := by
  have hbq : (0 : ℚ) < (base : ℚ) := by exact_mod_cast hb
  have hq : 0 ≤ number / (base : ℚ) := div_nonneg hn hbq.le
  rw [round_cast_of_nonneg hq]
  calc number = (number / (base : ℚ)) * (base : ℚ) :=
        (div_mul_cancel₀ number hbq.ne').symm
    _ < ((⌊number / (base : ℚ)⌋ : ℚ) + 1) * (base : ℚ) :=
        mul_lt_mul_of_pos_right (Int.lt_floor_add_one _) hbq
    _ = (⌊number / (base : ℚ)⌋ : ℚ) * (base : ℚ) + (base : ℚ) := by ring

/-- C5: for every size, atomicResolution, and positive stepBaseQuantums,
`calculate_quantums` computes size × 10^(−atomicResolution), truncation-rounds it
to the grid of stepBaseQuantums multiples (for a nonnegative raw value the
rounded value is the greatest multiple not exceeding it), and floors the result
to at least stepBaseQuantums; so the result is a multiple of stepBaseQuantums,
at least stepBaseQuantums, and the spec's example
(size 0.01, atomicResolution −10, stepBaseQuantums 1000000) yields 100000000. -/
theorem calculate_quantums_grid (size : ℚ)
    (atomic_resolution step_base_quantums : ℤ) (hstep : 0 < step_base_quantums) :
    step_base_quantums ∣ calculate_quantums size atomic_resolution step_base_quantums
    ∧ step_base_quantums ≤ calculate_quantums size atomic_resolution step_base_quantums
    ∧ (0 ≤ size * pow10 (-1 * atomic_resolution) →
        ((round (size * pow10 (-1 * atomic_resolution)) step_base_quantums : ℤ) : ℚ)
            ≤ size * pow10 (-1 * atomic_resolution)
          ∧ size * pow10 (-1 * atomic_resolution)
            < ((round (size * pow10 (-1 * atomic_resolution)) step_base_quantums : ℤ) : ℚ)
              + (step_base_quantums : ℚ))
    ∧ calculate_quantums (0.01 : ℚ) (-10) 1000000 = 100000000 := by
  refine ⟨?_, ?_, ?_, ?_⟩
  · show step_base_quantums ∣
      max (round (size * pow10 (-1 * atomic_resolution)) step_base_quantums) step_base_quantums
    rcases max_choice (round (size * pow10 (-1 * atomic_resolution)) step_base_quantums)
        step_base_quantums with h | h <;> rw [h]
    exact round_dvd _ _
  · exact le_max_right _ _
  · intro h0
    exact ⟨round_le_of_nonneg h0 hstep, lt_round_add_of_nonneg h0 hstep⟩
  · show max (round ((0.01 : ℚ) * pow10 (-1 * (-10))) 1000000) 1000000 = 100000000
    have hraw : (0.01 : ℚ) * pow10 (-1 * (-10)) = 100000000 := by
      norm_num [pow10, show ((10 : ℤ).toNat) = 10 from rfl]
    have hdiv : ((100000000 : ℚ) / (1000000 : ℤ)) = ((100 : ℤ) : ℚ) := by norm_num
    have hround : round ((0.01 : ℚ) * pow10 (-1 * (-10))) 1000000 = 100000000 := by
      unfold round ratTrunc
      rw [hraw, hdiv, if_pos (by norm_num), Int.floor_intCast]
      norm_num
    rw [hround]
    exact max_eq_left (by norm_num)

/-- C5 witness: the theorem instantiated at size 3, atomicResolution 0,
stepBaseQuantums 2. -/
theorem calculate_quantums_grid_witness :
    (0 : ℤ) < 2 ∧ (2 : ℤ) ∣ calculate_quantums 3 0 2 ∧ (2 : ℤ) ≤ calculate_quantums 3 0 2 :=
  ⟨by norm_num, (calculate_quantums_grid 3 0 2 (by norm_num)).1,
    (calculate_quantums_grid 3 0 2 (by norm_num)).2.1⟩

/-- C6: for every price, atomicResolution, quantumConversionExponent, and
positive subticksPerTick, `calculate_subticks` computes price × 10^exponent with
exponent = atomicResolution − quantumConversionExponent − (−6), truncation-rounds
to the grid of subticksPerTick multiples (for a nonnegative raw value the rounded
value is the greatest multiple not exceeding it), and floors to at least
subticksPerTick; so the result is a multiple of subticksPerTick and at least
subticksPerTick. -/
theorem calculate_subticks_grid (price : ℚ)
    (atomic_resolution quantum_conversion_exponent subticks_per_tick : ℤ)
    (hs : 0 < subticks_per_tick) :
    QUOTE_QUANTUMS_ATOMIC_RESOLUTION = -6
    ∧ subticks_per_tick ∣
        calculate_subticks price atomic_resolution quantum_conversion_exponent subticks_per_tick
    ∧ subticks_per_tick ≤
        calculate_subticks price atomic_resolution quantum_conversion_exponent subticks_per_tick
    ∧ (0 ≤ price * pow10 (atomic_resolution - quantum_conversion_exponent - QUOTE_QUANTUMS_ATOMIC_RESOLUTION) →
        ((round (price * pow10 (atomic_resolution - quantum_conversion_exponent - QUOTE_QUANTUMS_ATOMIC_RESOLUTION)) subticks_per_tick : ℤ) : ℚ)
            ≤ price * pow10 (atomic_resolution - quantum_conversion_exponent - QUOTE_QUANTUMS_ATOMIC_RESOLUTION)
          ∧ price * pow10 (atomic_resolution - quantum_conversion_exponent - QUOTE_QUANTUMS_ATOMIC_RESOLUTION)
            < ((round (price * pow10 (atomic_resolution - quantum_conversion_exponent - QUOTE_QUANTUMS_ATOMIC_RESOLUTION)) subticks_per_tick : ℤ) : ℚ)
              + (subticks_per_tick : ℚ)) := by
  refine ⟨rfl, ?_, ?_, ?_⟩
  · show subticks_per_tick ∣
      max (round (price * pow10 (atomic_resolution - quantum_conversion_exponent - QUOTE_QUANTUMS_ATOMIC_RESOLUTION)) subticks_per_tick) subticks_per_tick
    rcases max_choice (round (price * pow10 (atomic_resolution - quantum_conversion_exponent - QUOTE_QUANTUMS_ATOMIC_RESOLUTION)) subticks_per_tick)
        subticks_per_tick with h | h <;> rw [h]
    exact round_dvd _ _
  · exact le_max_right _ _
  · intro h0
    exact ⟨round_le_of_nonneg h0 hs, lt_round_add_of_nonneg h0 hs⟩

/-- C6 witness: the theorem instantiated at price 3, atomicResolution 0,
quantumConversionExponent −6, subticksPerTick 2. -/
theorem calculate_subticks_grid_witness :
    (0 : ℤ) < 2 ∧ (2 : ℤ) ∣ calculate_subticks 3 0 (-6) 2
      ∧ (2 : ℤ) ≤ calculate_subticks 3 0 (-6) 2 :=
  ⟨by norm_num, (calculate_subticks_grid 3 0 (-6) 2 (by norm_num)).2.1,
    (calculate_subticks_grid 3 0 (-6) 2 (by norm_num)).2.2.1⟩

/-- C10: non-positive inputs are silently normalized to the minimum grid unit,
never rejected: for every size ≤ 0 and positive stepBaseQuantums,
`calculate_quantums` returns exactly stepBaseQuantums, and for every price ≤ 0
and positive subticksPerTick, `calculate_subticks` returns exactly
subticksPerTick. -/
theorem nonpositive_inputs_normalize_to_minimum :
    (∀ (size : ℚ) (atomic_resolution step_base_quantums : ℤ),
        size ≤ 0 → 0 < step_base_quantums →
        calculate_quantums size atomic_resolution step_base_quantums = step_base_quantums)
    ∧ (∀ (price : ℚ) (atomic_resolution quantum_conversion_exponent subticks_per_tick : ℤ),
        price ≤ 0 → 0 < subticks_per_tick →
        calculate_subticks price atomic_resolution quantum_conversion_exponent subticks_per_tick
          = subticks_per_tick) := by
  constructor
  · intro size a s hsize hs
    show max (round (size * pow10 (-1 * a)) s) s = s
    have hraw : size * pow10 (-1 * a) ≤ 0 :=
      mul_nonpos_iff.mpr (Or.inr ⟨hsize, (pow10_pos _).le⟩)
    exact max_eq_right ((round_nonpos hraw hs).trans hs.le)
  · intro price a q s hprice hs
    show max (round (price * pow10 (a - q - QUOTE_QUANTUMS_ATOMIC_RESOLUTION)) s) s = s
    have hraw : price * pow10 (a - q - QUOTE_QUANTUMS_ATOMIC_RESOLUTION) ≤ 0 :=
      mul_nonpos_iff.mpr (Or.inr ⟨hprice, (pow10_pos _).le⟩)
    exact max_eq_right ((round_nonpos hraw hs).trans hs.le)

/-- C10 witness: the theorem instantiated at size −1 (step 3) and price −2
(subticksPerTick 5). -/
theorem nonpositive_inputs_normalize_to_minimum_witness :
    (-1 : ℚ) ≤ 0 ∧ (0 : ℤ) < 3 ∧ calculate_quantums (-1) 0 3 = 3
    ∧ (-2 : ℚ) ≤ 0 ∧ (0 : ℤ) < 5 ∧ calculate_subticks (-2) 0 0 5 = 5 :=
  ⟨by norm_num, by norm_num,
    nonpositive_inputs_normalize_to_minimum.1 (-1) 0 3 (by norm_num) (by norm_num),
    by norm_num, by norm_num,
    nonpositive_inputs_normalize_to_minimum.2 (-2) 0 0 5 (by norm_num) (by norm_num)⟩

/-! Facts about the good-til field generator and validator. -/

theorem generate_good_til_fields_short_term_eq
    (good_til_blocks good_til_seconds latest_height now : ℕ) :
    generate_good_til_fields .SHORT_TERM good_til_blocks good_til_seconds latest_height now
      = if latest_height + good_til_blocks < latest_height + 1
          ∨ latest_height + good_til_blocks > latest_height + 1 + SHORT_BLOCK_WINDOW
        then .error .goodTilBlockOutOfWindow
        else .ok (latest_height + good_til_blocks, 0) := by
  have hgen : generate_good_til_fields .SHORT_TERM good_til_blocks good_til_seconds
      latest_height now
      = match calculate_good_til_block good_til_blocks latest_height with
        | .error e => .error e
        | .ok good_til_block => .ok (good_til_block, 0) := rfl
  have hcalc : calculate_good_til_block good_til_blocks latest_height
      = match (if latest_height + good_til_blocks < latest_height + 1
            ∨ latest_height + good_til_blocks > latest_height + 1 + SHORT_BLOCK_WINDOW
          then (.error .goodTilBlockOutOfWindow : Except ChainError Unit)
          else .ok ()) with
        | .error e => .error e
        | .ok _ => .ok (latest_height + good_til_blocks) := rfl
  rw [hgen, hcalc]
  by_cases hc : latest_height + good_til_blocks < latest_height + 1
      ∨ latest_height + good_til_blocks > latest_height + 1 + SHORT_BLOCK_WINDOW
  · rw [if_pos hc, if_pos hc]
  · rw [if_neg hc, if_neg hc]

/-- C4: for a short-term order, `generate_good_til_fields` returns
goodTilBlock = currentHeight + goodTilBlocks and goodTilBlockTime = 0, and
raises GoodTilBlockOutOfWindow if and only if goodTilBlock < currentHeight + 1
or goodTilBlock > currentHeight + 1 + SHORT_BLOCK_WINDOW, where
SHORT_BLOCK_WINDOW = 20; in particular, currentHeight = 1000 with
goodTilBlocks = 25 fails. -/
theorem generate_good_til_fields_short_term_window :
    (∀ (good_til_blocks good_til_seconds latest_height now : ℕ),
        (generate_good_til_fields .SHORT_TERM good_til_blocks good_til_seconds latest_height now
            = .error .goodTilBlockOutOfWindow
          ↔ (latest_height + good_til_blocks < latest_height + 1
              ∨ latest_height + good_til_blocks > latest_height + 1 + SHORT_BLOCK_WINDOW))
        ∧ (generate_good_til_fields .SHORT_TERM good_til_blocks good_til_seconds latest_height now
            = .ok (latest_height + good_til_blocks, 0)
          ↔ ¬(latest_height + good_til_blocks < latest_height + 1
              ∨ latest_height + good_til_blocks > latest_height + 1 + SHORT_BLOCK_WINDOW)))
    ∧ SHORT_BLOCK_WINDOW = 20
    ∧ generate_good_til_fields .SHORT_TERM 25 0 1000 0
        = .error .goodTilBlockOutOfWindow := by
  refine ⟨?_, rfl, rfl⟩
  intro good_til_blocks good_til_seconds latest_height now
  rw [generate_good_til_fields_short_term_eq]
  by_cases hc : latest_height + good_til_blocks < latest_height + 1
      ∨ latest_height + good_til_blocks > latest_height + 1 + SHORT_BLOCK_WINDOW
  · rw [if_pos hc]
    exact ⟨iff_of_true rfl hc, iff_of_false (by simp) (not_not_intro hc)⟩
  · rw [if_neg hc]
    exact ⟨iff_of_false (by simp) hc, iff_of_true rfl hc⟩

/-- C1: whenever `generate_good_til_fields` returns normally (with the wall
clock positive, as a unix timestamp always is), exactly one of the returned
pair (goodTilBlock, goodTilBlockTime) is nonzero and the other is exactly
zero; the stateful branch returns (0, currentWallClockTime + goodTilTimeSeconds)
ignoring goodTilBlocks, and the short-term branch returns
(currentHeight + goodTilBlocks, 0). -/
theorem generate_good_til_fields_mutual_exclusion (order_flags : OrderFlags)
    (good_til_blocks good_til_seconds latest_height now : ℕ) (hnow : 0 < now)
    (p : ℕ × ℕ)
    (h : generate_good_til_fields order_flags good_til_blocks good_til_seconds
        latest_height now = .ok p) :
    ((p.1 = 0 ∧ p.2 ≠ 0) ∨ (p.1 ≠ 0 ∧ p.2 = 0))
    ∧ (order_flags.is_stateful = true → p = (0, now + good_til_seconds))
    ∧ (order_flags.is_stateful = false → p = (latest_height + good_til_blocks, 0)) := by
  cases order_flags with
  | SHORT_TERM =>
    rw [generate_good_til_fields_short_term_eq] at h
    by_cases hc : latest_height + good_til_blocks < latest_height + 1
        ∨ latest_height + good_til_blocks > latest_height + 1 + SHORT_BLOCK_WINDOW
    · rw [if_pos hc] at h
      exact absurd h (by simp)
    · rw [if_neg hc] at h
      have hp : p = (latest_height + good_til_blocks, 0) := by
        injection h with h'
        exact h'.symm
      subst hp
      refine ⟨Or.inr ⟨?_, rfl⟩, by simp [OrderFlags.is_stateful], fun _ => rfl⟩
      simp only [not_or, not_lt] at hc
      omega
  | LONG_TERM =>
    simp only [generate_good_til_fields, OrderFlags.is_stateful,
      calculate_good_til_block_time, if_true] at h
    have hp : p = (0, now + good_til_seconds) := by
      injection h with h'
      exact h'.symm
    subst hp
    exact ⟨Or.inl ⟨rfl, by omega⟩, fun _ => rfl, fun hf => absurd hf (by decide)⟩
  | CONDITIONAL =>
    simp only [generate_good_til_fields, OrderFlags.is_stateful,
      calculate_good_til_block_time, if_true] at h
    have hp : p = (0, now + good_til_seconds) := by
      injection h with h'
      exact h'.symm
    subst hp
    exact ⟨Or.inl ⟨rfl, by omega⟩, fun _ => rfl, fun hf => absurd hf (by decide)⟩

/-- C1 witness: a stateful (LONG_TERM) instance at wall clock 100 with
goodTilTimeSeconds 60 returns (0, 160). -/
theorem generate_good_til_fields_mutual_exclusion_witness :
    (((0 : ℕ), (160 : ℕ)).1 = 0 ∧ ((0 : ℕ), (160 : ℕ)).2 ≠ 0)
      ∨ (((0 : ℕ), (160 : ℕ)).1 ≠ 0 ∧ ((0 : ℕ), (160 : ℕ)).2 = 0) :=
  (generate_good_til_fields_mutual_exclusion .LONG_TERM 7 60 50 100 (by decide)
    (0, 160) rfl).1

/-- C3: `validate_good_til_fields` accepts exactly the inputs violating none of
the four rules, raises StatefulOrderMissingGTBT when stateful with
goodTilBlockTime = 0, StatefulOrderNonzeroGTB when stateful with nonzero
goodTilBlock (and nonzero goodTilBlockTime), ShortTermOrderMissingGTB when
short-term with goodTilBlock = 0, ShortTermOrderNonzeroGTBT when short-term
with nonzero goodTilBlockTime (and nonzero goodTilBlock); and it is invoked by
both `compose_msg_place_order` and `compose_msg_cancel_order` before any
message is built: a composer can return a message only if the validator
accepted. -/
theorem validate_good_til_fields_spec :
    (∀ (is_stateful_order : Bool) (good_til_block_time good_til_block : ℕ),
        validate_good_til_fields is_stateful_order good_til_block_time good_til_block = .ok ()
          ↔ ((is_stateful_order = true → good_til_block_time ≠ 0 ∧ good_til_block = 0)
            ∧ (is_stateful_order = false → good_til_block ≠ 0 ∧ good_til_block_time = 0)))
    ∧ (∀ good_til_block,
        validate_good_til_fields true 0 good_til_block = .error .statefulOrderMissingGTBT)
    ∧ (∀ t b, validate_good_til_fields true (t + 1) (b + 1) = .error .statefulOrderNonzeroGTB)
    ∧ (∀ t, validate_good_til_fields false t 0 = .error .shortTermOrderMissingGTB)
    ∧ (∀ t b, validate_good_til_fields false (t + 1) (b + 1) = .error .shortTermOrderNonzeroGTBT)
    ∧ (∀ (address : String)
        (subaccount_number client_id clob_pair_id order_flags good_til_block good_til_block_time : ℕ)
        (side : ProtoSide) (quantums subticks : ℕ) (time_in_force : ProtoTimeInForce)
        (reduce_only : Bool) (client_metadata : ℕ) (condition_type : ProtoConditionType)
        (conditional_order_trigger_subticks : ℕ) (msg : MsgPlaceOrder),
        compose_msg_place_order address subaccount_number client_id clob_pair_id order_flags
            good_til_block good_til_block_time side quantums subticks time_in_force reduce_only
            client_metadata condition_type conditional_order_trigger_subticks = .ok msg →
        ∃ s, is_order_flag_stateful_order order_flags = .ok s
          ∧ validate_good_til_fields s good_til_block_time good_til_block = .ok ())
    ∧ (∀ (address : String)
        (subaccount_number client_id clob_pair_id order_flags good_til_block good_til_block_time : ℕ)
        (msg : MsgCancelOrder),
        compose_msg_cancel_order address subaccount_number client_id clob_pair_id order_flags
            good_til_block good_til_block_time = .ok msg →
        ∃ s, is_order_flag_stateful_order order_flags = .ok s
          ∧ validate_good_til_fields s good_til_block_time good_til_block = .ok ()) := by
  refine ⟨?_, ?_, ?_, ?_, ?_, ?_, ?_⟩
  · intro s t b
    cases s <;>
      simp only [validate_good_til_fields] <;>
      by_cases ht : t = 0 <;> by_cases hb : b = 0 <;>
      simp [ht, hb]
  · intro b
    simp [validate_good_til_fields]
  · intro t b
    simp [validate_good_til_fields]
  · intro t
    simp [validate_good_til_fields]
  · intro t b
    simp [validate_good_til_fields]
  · intro address sn cid cpid oflags gtb gtbt side q st tif ro cm ct cots msg h
    unfold compose_msg_place_order at h
    split at h
    · exact absurd h (by simp)
    · rename_i s hs
      split at h
      · exact absurd h (by simp)
      · rename_i u hv
        cases u
        exact ⟨s, hs, hv⟩
  · intro address sn cid cpid oflags gtb gtbt msg h
    unfold compose_msg_cancel_order at h
    split at h
    · exact absurd h (by simp)
    · rename_i s hs
      split at h
      · exact absurd h (by simp)
      · rename_i u hv
        cases u
        exact ⟨s, hs, hv⟩

/-- C3 witness: a valid stateful input is accepted, and a concretely composed
place-order message implies its inputs passed the validator. -/
theorem validate_good_til_fields_spec_witness :
    validate_good_til_fields true 1 0 = .ok ()
    ∧ (∃ s, is_order_flag_stateful_order 64 = .ok s
        ∧ validate_good_til_fields s 5 0 = .ok ()) :=
  ⟨(validate_good_til_fields_spec.1 true 1 0).mpr (by decide),
    validate_good_til_fields_spec.2.2.2.2.2.1 "a" 0 1 2 64 0 5 .SIDE_BUY 10 20
      .TIME_IN_FORCE_UNSPECIFIED false 0 .CONDITION_TYPE_UNSPECIFIED 0
      ⟨⟨⟨⟨"a", 0⟩, 1, 64, 2⟩, .SIDE_BUY, 10, 20, 0, 5, .TIME_IN_FORCE_UNSPECIFIED,
        false, 0, .CONDITION_TYPE_UNSPECIFIED, 0⟩⟩ rfl⟩

/-! Facts about the flag and time-in-force resolvers. -/

/-- C2 counterexample: `calculate_order_flags` on a MARKET order with
timeInForce GTT returns SHORT_TERM (0), not LONG_TERM (64) as the claim's
three-rule table requires. -/
theorem calculate_order_flags_market_gtt_short_term :
    calculate_order_flags .MARKET .GTT = ORDER_FLAGS_SHORT_TERM
    ∧ calculate_order_flags .MARKET .GTT ≠ ORDER_FLAGS_LONG_TERM :=
  ⟨rfl, by decide⟩

/-- C2 (amended): `calculate_order_flags` maps conditional order types
(STOP_MARKET, TAKE_PROFIT_MARKET, STOP_LIMIT, TAKE_PROFIT_LIMIT) to
CONDITIONAL (32) regardless of timeInForce; MARKET to SHORT_TERM (0)
regardless of timeInForce (including GTT); and LIMIT to LONG_TERM (64) on GTT
and SHORT_TERM (0) on IOC or FOK. -/
theorem calculate_order_flags_table :
    (∀ tif, calculate_order_flags .STOP_MARKET tif = ORDER_FLAGS_CONDITIONAL)
    ∧ (∀ tif, calculate_order_flags .TAKE_PROFIT_MARKET tif = ORDER_FLAGS_CONDITIONAL)
    ∧ (∀ tif, calculate_order_flags .STOP_LIMIT tif = ORDER_FLAGS_CONDITIONAL)
    ∧ (∀ tif, calculate_order_flags .TAKE_PROFIT_LIMIT tif = ORDER_FLAGS_CONDITIONAL)
    ∧ (∀ tif, calculate_order_flags .MARKET tif = ORDER_FLAGS_SHORT_TERM)
    ∧ calculate_order_flags .LIMIT .GTT = ORDER_FLAGS_LONG_TERM
    ∧ calculate_order_flags .LIMIT .IOC = ORDER_FLAGS_SHORT_TERM
    ∧ calculate_order_flags .LIMIT .FOK = ORDER_FLAGS_SHORT_TERM := by
  refine ⟨?_, ?_, ?_, ?_, ?_, rfl, rfl, rfl⟩ <;> intro tif <;> cases tif <;> rfl

/-- C7 counterexample: the source enumeration `OrderTimeInForce` contains only
GTT, IOC and FOK, so the spec's GTX member has no counterpart in the code and
no GTX alias is accepted anywhere. -/
theorem spec_gtx_has_no_code_counterpart :
    specTimeInForceToCode .GTX = none := rfl

/-- C7 (amended): over the timeInForce values that exist in the source
enumeration (GTT, IOC, FOK — there is no GTX member), `calculate_time_in_force`
agrees with the spec's table for every (orderType, timeInForce, postOnly)
triple: market-class order types accept only IOC→IOC or FOK→FOK and raise
InvalidTimeInForceForOrderType otherwise; limit-class order types accept
GTT→UNSPECIFIED (or →POST_ONLY when the post-only flag is set), IOC→IOC and
FOK→FOK. -/
theorem calculate_time_in_force_table :
    ∀ (order_type : OrderType) (time_in_force : OrderTimeInForce) (post_only : Bool),
      calculate_time_in_force order_type time_in_force post_only
        = resolveTimeInForceSpec order_type time_in_force post_only := by
  intro order_type time_in_force post_only
  cases order_type <;> cases time_in_force <;> cases post_only <;> rfl

/-- C8: `calculate_conditional_order_trigger_subticks` returns 0 for every
non-conditional order type (LIMIT, MARKET) regardless of triggerPrice; for
every conditional order type it raises MissingTriggerPrice when the
triggerPrice is absent and otherwise equals `calculate_subticks` applied to
the trigger price with the same market parameters. -/
theorem calculate_conditional_order_trigger_subticks_spec :
    (∀ (a q s : ℤ) (tp : Option ℚ),
        calculate_conditional_order_trigger_subticks .LIMIT a q s tp = .ok 0)
    ∧ (∀ (a q s : ℤ) (tp : Option ℚ),
        calculate_conditional_order_trigger_subticks .MARKET a q s tp = .ok 0)
    ∧ (∀ (a q s : ℤ),
        calculate_conditional_order_trigger_subticks .STOP_MARKET a q s none
          = .error .missingTriggerPrice)
    ∧ (∀ (a q s : ℤ) (p : ℚ),
        calculate_conditional_order_trigger_subticks .STOP_MARKET a q s (some p)
          = .ok (calculate_subticks p a q s))
    ∧ (∀ (a q s : ℤ),
        calculate_conditional_order_trigger_subticks .TAKE_PROFIT_MARKET a q s none
          = .error .missingTriggerPrice)
    ∧ (∀ (a q s : ℤ) (p : ℚ),
        calculate_conditional_order_trigger_subticks .TAKE_PROFIT_MARKET a q s (some p)
          = .ok (calculate_subticks p a q s))
    ∧ (∀ (a q s : ℤ),
        calculate_conditional_order_trigger_subticks .STOP_LIMIT a q s none
          = .error .missingTriggerPrice)
    ∧ (∀ (a q s : ℤ) (p : ℚ),
        calculate_conditional_order_trigger_subticks .STOP_LIMIT a q s (some p)
          = .ok (calculate_subticks p a q s))
    ∧ (∀ (a q s : ℤ),
        calculate_conditional_order_trigger_subticks .TAKE_PROFIT_LIMIT a q s none
          = .error .missingTriggerPrice)
    ∧ (∀ (a q s : ℤ) (p : ℚ),
        calculate_conditional_order_trigger_subticks .TAKE_PROFIT_LIMIT a q s (some p)
          = .ok (calculate_subticks p a q s)) :=
  ⟨fun _ _ _ _ => rfl, fun _ _ _ _ => rfl,
    fun _ _ _ => rfl, fun _ _ _ _ => rfl,
    fun _ _ _ => rfl, fun _ _ _ _ => rfl,
    fun _ _ _ => rfl, fun _ _ _ _ => rfl,
    fun _ _ _ => rfl, fun _ _ _ _ => rfl⟩

/-- C9: the resolver call in `CompositeClient.place_order` passes only
(orderType, timeInForce) to `calculate_time_in_force`, whose `post_only`
parameter is required positional with no default, so for every input the call
raises TypeError (missing required argument) before any time-in-force — and
hence any encoded order — is produced. -/
theorem place_order_time_in_force_missing_argument :
    ∀ (order_type : OrderType) (time_in_force : OrderTimeInForce),
      place_order_time_in_force order_type time_in_force
        = .error .missingRequiredArgument :=
  fun _ _ => rfl

end V4Client
